import Mathlib

/-!
# Verification of `cargo-sync-readme` (binary front end and core transformation)

This file embeds the program in `src/main.rs` (the `cargo sync-readme`
command-line front end) and — where the claims concern the library crate
`cargo_sync_readme`, whose source is not part of this repository snapshot —
models the documented behaviour of that library from the specification.

The front end `run_with_manifest` is an orchestration over external
collaborators (manifest lookup, file reads, the transformation itself).
We embed it as a pure function over an `Env` that records the results those
collaborators would return, and we log the I/O actions the code performs as an
explicit list of `Effect`s, so that statements such as "the readme file is
never written in check mode" become statements about the effect log.
-/

set_option autoImplicit false

namespace SyncReadme

/-- The `PreferDocFrom` option of the CLI (`-f bin` / `-f lib`). -/
inductive PreferDocFrom where
  | bin
  | lib
  deriving DecidableEq, Repr

/-- The parsed command-line options, from `CliOpt::SyncReadme` in `src/main.rs`:
`show_hidden_doc`, `prefer_doc_from`, `crlf` and `check`. -/
structure CliOpt where
  show_hidden_doc : Bool
  prefer_doc_from : Option PreferDocFrom
  crlf : Bool
  check : Bool
  deriving DecidableEq, Repr

/-- The `RuntimeError` enum of `src/main.rs` (lines 151–159).  Payloads that
are library error types in Rust (`FindManifestError`, `TransformError`) are
carried as their rendered message strings. -/
inductive RuntimeError where
  | FindManifestError (e : String)
  | CannotFindEntryPoint
  | HardError (s : String)
  | HadWarnings
  | TransformError (e : String)
  | NotSynchronized
  deriving DecidableEq, Repr

/-- The `WithWarnings` wrapper returned by the library transformation:
a value together with an ordered list of warnings.  At the front-end level
warnings only matter as displayable messages, so they are strings. -/
structure WithWarnings (α : Type) where
  value : α
  warnings : List String
  deriving DecidableEq, Repr

/-- Propositional equality on `Except` values is decidable componentwise. -/
def exceptDecEq {ε α : Type} [DecidableEq ε] [DecidableEq α] :
    (a b : Except ε α) → Decidable (a = b)
  | Except.error x, Except.error y =>
    if h : x = y then isTrue (congrArg Except.error h)
    else isFalse fun hc => h (Except.error.inj hc)
  | Except.error _, Except.ok _ => isFalse fun hc => Except.noConfusion hc
  | Except.ok _, Except.error _ => isFalse fun hc => Except.noConfusion hc
  | Except.ok x, Except.ok y =>
    if h : x = y then isTrue (congrArg Except.ok h)
    else isFalse fun hc => h (Except.ok.inj hc)

instance {ε α : Type} [DecidableEq ε] [DecidableEq α] : DecidableEq (Except ε α) :=
  exceptDecEq

/-- Results the external collaborators of `run_with_manifest` would return.
`crate_name` and `entry_point` model `manifest.crate_name()` and
`manifest.entry_point(prefer_doc_from)`; `extract_result` the outcome of
`extract_inner_doc`; `read_readme` the outcome of `read_readme`;
`transform_result` the outcome of `transform_readme` (its `?`-conversion into
`RuntimeError` wraps the message in `RuntimeError.TransformError`).
`create_ok` tells whether `File::create(readme_path)` would succeed and
`write_ok` whether the subsequent `write_all` would. -/
structure Env where
  crate_name : Option String
  entry_point : Option String
  extract_result : Except String String
  readme_path : String
  read_readme : Except String String
  transform_result : Except String (WithWarnings String)
  create_ok : Bool
  write_ok : Bool

/-- The I/O actions `run_with_manifest` performs, in order: reading the entry
point (inside `extract_inner_doc`), reading the readme, printing one warning
to stderr, creating the readme file, and attempting `write_all` on it (the
boolean records whether the attempted write succeeded — the code discards it). -/
inductive Effect where
  | readEntryPoint
  | readReadme
  | printWarning (w : String)
  | createFile (path : String)
  | writeAll (path : String) (content : String) (ok : Bool)
  deriving DecidableEq, Repr

/-- How `run_with_manifest` terminates: `Ok(())`, `Err(e)`, or a panic
(the `.unwrap()` on `File::create` at line 242 of `src/main.rs`). -/
inductive Outcome where
  | ok
  | err (e : RuntimeError)
  | panic
  deriving DecidableEq, Repr

/-- `report_synchronized` from `src/main.rs` lines 256–262:
`Err(NotSynchronized)` when old and new text differ, `Ok(())` otherwise. -/
def report_synchronized (old new : String) : Except RuntimeError Unit :=
  if old ≠ new then Except.error RuntimeError.NotSynchronized else Except.ok ()

/-- Lift a `Result<(), RuntimeError>` into the three-way `Outcome`. -/
def outcomeOf : Except RuntimeError Unit → Outcome
  | Except.ok _ => Outcome.ok
  | Except.error e => Outcome.err e

/-- `run_with_manifest` from `src/main.rs` lines 209–254, with the external
collaborators replaced by the oracle `Env`.  Returns the termination outcome
together with the ordered log of I/O effects performed. -/
def run_with_manifest (env : Env) (cli : CliOpt) : Outcome × List Effect :=
  match env.crate_name with
  | none => (Outcome.err (RuntimeError.HardError "Failed to get the name of the crate"), [])
  | some _ =>
    match env.entry_point with
    | none => (Outcome.err RuntimeError.CannotFindEntryPoint, [])
    | some _ =>
      match env.extract_result with
      | Except.error e =>
        (Outcome.err (RuntimeError.TransformError e), [Effect.readEntryPoint])
      | Except.ok _ =>
        match env.read_readme with
        | Except.error e =>
          (Outcome.err (RuntimeError.TransformError e),
           [Effect.readEntryPoint, Effect.readReadme])
        | Except.ok old_readme =>
          match env.transform_result with
          | Except.error e =>
            (Outcome.err (RuntimeError.TransformError e),
             [Effect.readEntryPoint, Effect.readReadme])
          | Except.ok ww =>
            let base := Effect.readEntryPoint :: Effect.readReadme ::
              ww.warnings.map Effect.printWarning
            if cli.check then
              (outcomeOf (report_synchronized old_readme ww.value), base)
            else if env.create_ok then
              ((if ww.warnings.isEmpty then Outcome.ok
                else Outcome.err RuntimeError.HadWarnings),
               base ++ [Effect.createFile env.readme_path,
                        Effect.writeAll env.readme_path ww.value env.write_ok])
            else
              (Outcome.panic, base ++ [Effect.createFile env.readme_path])

/-- `main` from `src/main.rs` lines 192–207: process exit code plus the effect
log.  `found` is the result of `Manifest::find_manifest(pwd)`; a panic in
`run_with_manifest` aborts the process with Rust's panic exit code 101. -/
def main_run (pwd_ok : Bool) (found : Except String Env) (cli : CliOpt) :
    Nat × List Effect :=
  if pwd_ok then
    match found with
    | Except.error _ => (1, [])
    | Except.ok env =>
      let r := run_with_manifest env cli
      ((match r.fst with
        | Outcome.ok => 0
        | Outcome.err _ => 1
        | Outcome.panic => 101), r.snd)
  else (1, [])

/-- An effect that creates or writes the readme file. -/
def isWriteEffect : Effect → Bool
  | Effect.createFile _ => true
  | Effect.writeAll _ _ _ => true
  | _ => false

/-- No effect in the log touches the readme file for writing. -/
def noWrites (effs : List Effect) : Prop :=
  ∀ e ∈ effs, isWriteEffect e = false

/-- The warnings surfaced on stderr by an effect log, in order. -/
def printedWarnings (effs : List Effect) : List String :=
  effs.filterMap fun e =>
    match e with
    | Effect.printWarning w => some w
    | _ => none

end SyncReadme

namespace SyncReadme

/-! ## The marker transformer and the doc extractor

The library crate `cargo_sync_readme` (functions `extract_inner_doc` and
`transform_readme`) is an external collaborator whose source is not part of
this repository snapshot; the definitions below model its documented
behaviour.  Both work at the level of lists of lines; CRLF handling is a
line-join rendering concern that does not exist at this level. -/

/-- Strip leading and trailing whitespace from a line. -/
def trimLine (s : String) : String :=
  String.mk (((s.toList.dropWhile Char.isWhitespace).reverse.dropWhile
    Char.isWhitespace).reverse)

/-- The bare marker literal (`src/main.rs` module documentation, line 18). -/
def MARKER : String := "<!-- cargo-sync-readme -->"

/-- The start marker literal (`src/main.rs` module documentation, line 20). -/
def MARKER_START : String := "<!-- cargo-sync-readme start -->"

/-- The end marker literal (`src/main.rs` module documentation, line 22). -/
def MARKER_END : String := "<!-- cargo-sync-readme end -->"

/-- Classification of a document line against the three marker literals;
a marker is recognized only when it stands on a line by itself, surrounding
whitespace trimmed. -/
inductive MarkerKind where
  | bare
  | mstart
  | mend
  | other
  deriving DecidableEq, Repr

/-- Modelled from the spec: classify one line of the target document. -/
def markerKind (l : String) : MarkerKind :=
  let t := trimLine l
  if t = MARKER then MarkerKind.bare
  else if t = MARKER_START then MarkerKind.mstart
  else if t = MARKER_END then MarkerKind.mend
  else MarkerKind.other

/-- Warnings of the marker transformer: an ambiguous duplicate-marker
structure, or an end marker met while still seeking. -/
inductive Warning where
  | multipleMarkers
  | strayEnd
  deriving DecidableEq, Repr

/-- The fatal error of the marker transformer: no usable marker span. -/
inductive TransformError where
  | NoMarkerFound
  deriving DecidableEq, Repr

/-- Does any line of `ls` carry a marker of some kind? -/
def anyMarker (ls : List String) : Bool :=
  ls.any fun l => markerKind l != MarkerKind.other

/-- Modelled from the spec: in state `FoundStart`, scan for the matching end
marker; returns the suffix after the end-marker line, or `none` when the start
marker is never closed. -/
def dropToEnd : List String → Option (List String)
  | [] => none
  | l :: ls => if markerKind l = MarkerKind.mend then some ls else dropToEnd ls

/-- Modelled from the spec (§4.4 marker state machine) for the library's
`transform_readme`, which is absent from this snapshot: scan the target
document once; at the first bare marker, splice `start :: doc ++ end` in its
place; at the first start marker, replace everything up to the matching end
marker with `doc`, re-emitting canonical start/end markers; a stray end
marker degrades to a warning and scanning continues; markers remaining after
the chosen span yield a `multipleMarkers` warning; `none` when no usable span
exists. -/
def transformGo (doc : List String) : List String → Option (List String × List Warning)
  | [] => none
  | l :: ls =>
    if markerKind l = MarkerKind.bare then
      some (MARKER_START :: (doc ++ MARKER_END :: ls),
            if anyMarker ls then [Warning.multipleMarkers] else [])
    else if markerKind l = MarkerKind.mstart then
      match dropToEnd ls with
      | some after =>
        some (MARKER_START :: (doc ++ MARKER_END :: after),
              if anyMarker after then [Warning.multipleMarkers] else [])
      | none => none
    else if markerKind l = MarkerKind.mend then
      (transformGo doc ls).map fun p => (l :: p.1, Warning.strayEnd :: p.2)
    else
      (transformGo doc ls).map fun p => (l :: p.1, p.2)

/-- Modelled from the spec: the library's `transform_readme` at the level of
lines — new document text with its ordered warnings, or the fatal
`NoMarkerFound`. -/
def transform_readme (readme doc : List String) :
    Except TransformError (List String × List Warning) :=
  match transformGo doc readme with
  | none => Except.error TransformError.NoMarkerFound
  | some out => Except.ok out

/-- The fatal error of the doc extractor. -/
inductive ExtractError where
  | NoDocumentation
  deriving DecidableEq, Repr

/-- Modelled from the spec: strip the inner-doc comment mark `//!` (and one
following space, if present) from a source line; `none` when the line is not
an inner-doc line. -/
def stripDocMark (l : String) : Option String :=
  match l.toList with
  | '/' :: '/' :: '!' :: rest =>
    some (String.mk (match rest with
      | ' ' :: rest2 => rest2
      | _ => rest))
  | _ => none

/-- A line that is blank after trimming. -/
def isBlank (l : String) : Bool :=
  trimLine l = ""

/-- An inner-attribute line such as a crate attribute. -/
def isAttrLine (l : String) : Bool :=
  match l.toList.dropWhile Char.isWhitespace with
  | '#' :: '!' :: '[' :: _ => true
  | _ => false

/-- Modelled from the spec: collect the leading inner-documentation block of a
source file — inner-doc lines with their mark stripped, skipping blank and
attribute lines, stopping at the first other line. -/
def leadingDocLines : List String → List String
  | [] => []
  | l :: ls =>
    match stripDocMark l with
    | some d => d :: leadingDocLines ls
    | none => if isBlank l || isAttrLine l then leadingDocLines ls else []

/-- The code-fence character (codepoint 96). -/
def fenceChar : Char := Char.ofNat 96

/-- A fenced-code-block boundary line inside the documentation: three fence
characters after optional leading whitespace. -/
def isFenceLine (l : String) : Bool :=
  match l.toList.dropWhile Char.isWhitespace with
  | a :: b :: c :: _ => a = fenceChar && b = fenceChar && c = fenceChar
  | _ => false

/-- The Rust-doc hidden-line rule: a single `#` followed by a space or by the
end of the line. -/
def isHiddenLine (l : String) : Bool :=
  match l.toList with
  | ['#'] => true
  | '#' :: ' ' :: _ => true
  | _ => false

/-- Modelled from the spec: walk the doc block tracking the fence state;
inside a fence, a hidden line is dropped unless `show_hidden` is true. -/
def filterHidden (show_hidden : Bool) : Bool → List String → List String
  | _, [] => []
  | inFence, l :: ls =>
    if isFenceLine l then l :: filterHidden show_hidden (!inFence) ls
    else if inFence && isHiddenLine l && !show_hidden then
      filterHidden show_hidden inFence ls
    else l :: filterHidden show_hidden inFence ls

/-- Tag every doc line with whether the hidden-line rule applies to it
(fence state threaded exactly as in `filterHidden`). -/
def tagHidden : Bool → List String → List (String × Bool)
  | _, [] => []
  | inFence, l :: ls =>
    if isFenceLine l then (l, false) :: tagHidden (!inFence) ls
    else (l, inFence && isHiddenLine l) :: tagHidden inFence ls

/-- Modelled from the spec: the library's `extract_inner_doc` at the level of
lines — the leading inner-doc block with hidden lines filtered, or
`NoDocumentation` when there is no leading doc block. -/
def extract_inner_doc (src : List String) (show_hidden : Bool) :
    Except ExtractError (List String) :=
  let ds := leadingDocLines src
  if ds.isEmpty then Except.error ExtractError.NoDocumentation
  else Except.ok (filterHidden show_hidden false ds)

end SyncReadme

namespace SyncReadme

/-! ## Front-end orchestration lemmas -/

theorem printedWarnings_append (a b : List Effect) :
    printedWarnings (a ++ b) = printedWarnings a ++ printedWarnings b := by
  simp [printedWarnings, List.filterMap_append]

theorem printedWarnings_map (ws : List String) :
    printedWarnings (ws.map Effect.printWarning) = ws := by
  induction ws with
  | nil => rfl
  | cons w t ih => simpa [printedWarnings, List.filterMap_cons] using ih

theorem printedWarnings_cons_other (e : Effect) (t : List Effect)
    (h : ∀ w, e ≠ Effect.printWarning w) :
    printedWarnings (e :: t) = printedWarnings t := by
  cases e <;> simp [printedWarnings, List.filterMap_cons]
  case printWarning w => exact absurd rfl (h w)

/-- Claim C1: in check mode, for every pair of old readme text and newly
transformed readme text, the run succeeds ("synchronized") exactly when the
old text equals the new text, returns the `NotSynchronized` error otherwise,
and in either case performs no effect that creates or writes the readme. -/
theorem claim_C1_check_verdict (env : Env) (cli : CliOpt)
    (cn ep doc old newR : String) (ws : List String)
    (h1 : env.crate_name = some cn) (h2 : env.entry_point = some ep)
    (h3 : env.extract_result = Except.ok doc)
    (h4 : env.read_readme = Except.ok old)
    (h5 : env.transform_result = Except.ok ⟨newR, ws⟩)
    (h6 : cli.check = true) :
    (run_with_manifest env cli).fst =
      (if old = newR then Outcome.ok else Outcome.err RuntimeError.NotSynchronized)
    ∧ noWrites (run_with_manifest env cli).snd := by
  constructor
  · by_cases hq : old = newR <;>
      simp [run_with_manifest, h1, h2, h3, h4, h5, h6, report_synchronized,
        outcomeOf, hq]
  · intro e he
    simp only [run_with_manifest, h1, h2, h3, h4, h5, h6, if_true,
      List.mem_cons, List.mem_map] at he
    rcases he with rfl | rfl | ⟨w, _, rfl⟩ <;> rfl

/-- Witness for C1 at a concrete mismatching pair in check mode. -/
theorem claim_C1_check_verdict_witness :
    (run_with_manifest ⟨some "c", some "src/lib.rs", Except.ok "doc", "README.md",
        Except.ok "old", Except.ok ⟨"new", ["w1"]⟩, true, true⟩
        ⟨false, none, false, true⟩).fst =
      (if "old" = "new" then Outcome.ok else Outcome.err RuntimeError.NotSynchronized)
    ∧ noWrites (run_with_manifest ⟨some "c", some "src/lib.rs", Except.ok "doc",
        "README.md", Except.ok "old", Except.ok ⟨"new", ["w1"]⟩, true, true⟩
        ⟨false, none, false, true⟩).snd :=
  claim_C1_check_verdict _ _ "c" "src/lib.rs" "doc" "old" "new" ["w1"]
    rfl rfl rfl rfl rfl rfl

/-- Claim C2: every run that reaches the transformation surfaces the whole
warning list, in order, whatever the mode and whatever the file-creation
outcome: the warnings printed on stderr are exactly the transformation's
warning list. -/
theorem claim_C2_warnings_surfaced (env : Env) (cli : CliOpt)
    (cn ep doc old newR : String) (ws : List String)
    (h1 : env.crate_name = some cn) (h2 : env.entry_point = some ep)
    (h3 : env.extract_result = Except.ok doc)
    (h4 : env.read_readme = Except.ok old)
    (h5 : env.transform_result = Except.ok ⟨newR, ws⟩) :
    printedWarnings (run_with_manifest env cli).snd = ws := by
  have hbase :
      printedWarnings (Effect.readEntryPoint :: Effect.readReadme ::
        ws.map Effect.printWarning) = ws := by
    rw [printedWarnings_cons_other, printedWarnings_cons_other, printedWarnings_map]
    · intro w h; exact Effect.noConfusion h
    · intro w h; exact Effect.noConfusion h
  rcases hc : cli.check with _ | _
  · rcases hk : env.create_ok with _ | _
    · simp only [run_with_manifest, h1, h2, h3, h4, h5, hc, hk, if_false,
        Bool.false_eq_true, printedWarnings_append]
      rw [hbase]
      simp [printedWarnings]
    · simp only [run_with_manifest, h1, h2, h3, h4, h5, hc, hk, if_false, if_true,
        Bool.false_eq_true, printedWarnings_append]
      rw [hbase]
      simp [printedWarnings]
  · simp only [run_with_manifest, h1, h2, h3, h4, h5, hc, if_true]
    exact hbase

/-- Witness for C2 at a concrete run carrying two warnings. -/
theorem claim_C2_warnings_surfaced_witness :
    printedWarnings (run_with_manifest ⟨some "c", some "src/lib.rs",
      Except.ok "doc", "README.md", Except.ok "old",
      Except.ok ⟨"new", ["w1", "w2"]⟩, true, true⟩
      ⟨false, none, false, false⟩).snd = ["w1", "w2"] :=
  claim_C2_warnings_surfaced _ _ "c" "src/lib.rs" "doc" "old" "new" ["w1", "w2"]
    rfl rfl rfl rfl rfl

/-- Claim C9: a manifest without a crate name makes the run fail immediately
with the hard error "Failed to get the name of the crate", with an empty
effect log — nothing read, nothing written. -/
theorem claim_C9_missing_crate_name (env : Env) (cli : CliOpt)
    (h : env.crate_name = none) :
    run_with_manifest env cli =
      (Outcome.err (RuntimeError.HardError "Failed to get the name of the crate"),
       []) := by
  simp [run_with_manifest, h]

/-- Witness for C9 at a concrete nameless manifest. -/
theorem claim_C9_missing_crate_name_witness :
    run_with_manifest ⟨none, some "src/lib.rs", Except.ok "doc", "README.md",
      Except.ok "old", Except.ok ⟨"new", []⟩, true, true⟩
      ⟨false, none, false, false⟩ =
      (Outcome.err (RuntimeError.HardError "Failed to get the name of the crate"),
       []) :=
  claim_C9_missing_crate_name _ _ rfl

end SyncReadme

namespace SyncReadme

/-- Claim C3: in non-check mode, a successful transformation with a non-empty
warning list still writes the new document to the readme file, and the run
finishes with the degraded-success `HadWarnings` error, which is
distinguishable from a clean success. -/
theorem claim_C3_warnings_degraded_success (env : Env) (cli : CliOpt)
    (cn ep doc old newR : String) (ws : List String)
    (h1 : env.crate_name = some cn) (h2 : env.entry_point = some ep)
    (h3 : env.extract_result = Except.ok doc)
    (h4 : env.read_readme = Except.ok old)
    (h5 : env.transform_result = Except.ok ⟨newR, ws⟩)
    (h6 : cli.check = false) (h7 : env.create_ok = true) (h8 : ws ≠ []) :
    Effect.writeAll env.readme_path newR env.write_ok ∈
      (run_with_manifest env cli).snd
    ∧ (run_with_manifest env cli).fst = Outcome.err RuntimeError.HadWarnings
    ∧ Outcome.err RuntimeError.HadWarnings ≠ Outcome.ok := by
  cases ws with
  | nil => exact absurd rfl h8
  | cons w t =>
    refine ⟨?_, ?_, by simp⟩
    · simp [run_with_manifest, h1, h2, h3, h4, h5, h6, h7]
    · simp [run_with_manifest, h1, h2, h3, h4, h5, h6, h7]

/-- Witness for C3 at a concrete warned run. -/
theorem claim_C3_warnings_degraded_success_witness :
    Effect.writeAll (Env.mk (some "c") (some "src/lib.rs") (Except.ok "doc")
        "README.md" (Except.ok "old") (Except.ok ⟨"new", ["w1"]⟩) true true).readme_path
        "new"
        (Env.mk (some "c") (some "src/lib.rs") (Except.ok "doc")
          "README.md" (Except.ok "old") (Except.ok ⟨"new", ["w1"]⟩) true true).write_ok ∈
      (run_with_manifest (Env.mk (some "c") (some "src/lib.rs") (Except.ok "doc")
        "README.md" (Except.ok "old") (Except.ok ⟨"new", ["w1"]⟩) true true)
        ⟨false, none, false, false⟩).snd
    ∧ (run_with_manifest (Env.mk (some "c") (some "src/lib.rs") (Except.ok "doc")
        "README.md" (Except.ok "old") (Except.ok ⟨"new", ["w1"]⟩) true true)
        ⟨false, none, false, false⟩).fst = Outcome.err RuntimeError.HadWarnings
    ∧ Outcome.err RuntimeError.HadWarnings ≠ Outcome.ok :=
  claim_C3_warnings_degraded_success _ _ "c" "src/lib.rs" "doc" "old" "new" ["w1"]
    rfl rfl rfl rfl rfl rfl rfl (by simp)

/-- Claim C4: every fatal condition — manifest discovery failure, missing
crate name, failed extraction, unreadable readme, failed transformation —
terminates the run with a single error, and no effect ever creates or writes
the readme file. -/
theorem claim_C4_fatal_no_write (env : Env) (cli : CliOpt)
    (h : env.crate_name = none ∨ env.entry_point = none
      ∨ (∃ e, env.extract_result = Except.error e)
      ∨ (∃ e, env.read_readme = Except.error e)
      ∨ (∃ e, env.transform_result = Except.error e)) :
    ((∃ e, (run_with_manifest env cli).fst = Outcome.err e)
      ∧ noWrites (run_with_manifest env cli).snd)
    ∧ ∀ s : String, main_run true (Except.error s) cli = (1, []) := by
  refine ⟨?_, fun s => rfl⟩
  rcases hcn : env.crate_name with _ | cn
  · refine ⟨⟨RuntimeError.HardError "Failed to get the name of the crate",
      by simp [run_with_manifest, hcn]⟩, ?_⟩
    intro e he
    simp [run_with_manifest, hcn] at he
  · rcases hep : env.entry_point with _ | ep
    · refine ⟨⟨RuntimeError.CannotFindEntryPoint,
        by simp [run_with_manifest, hcn, hep]⟩, ?_⟩
      intro e he
      simp [run_with_manifest, hcn, hep] at he
    · rcases hex : env.extract_result with ex | d
      · refine ⟨⟨RuntimeError.TransformError ex,
          by simp [run_with_manifest, hcn, hep, hex]⟩, ?_⟩
        intro e he
        simp [run_with_manifest, hcn, hep, hex] at he
        subst he; rfl
      · rcases hrd : env.read_readme with er | old
        · refine ⟨⟨RuntimeError.TransformError er,
            by simp [run_with_manifest, hcn, hep, hex, hrd]⟩, ?_⟩
          intro e he
          simp [run_with_manifest, hcn, hep, hex, hrd] at he
          rcases he with rfl | rfl <;> rfl
        · rcases htr : env.transform_result with et | ww
          · refine ⟨⟨RuntimeError.TransformError et,
              by simp [run_with_manifest, hcn, hep, hex, hrd, htr]⟩, ?_⟩
            intro e he
            simp [run_with_manifest, hcn, hep, hex, hrd, htr] at he
            rcases he with rfl | rfl <;> rfl
          · exfalso
            rcases h with h | h | ⟨e, h⟩ | ⟨e, h⟩ | ⟨e, h⟩
            · rw [h] at hcn; exact Option.noConfusion hcn
            · rw [h] at hep; exact Option.noConfusion hep
            · rw [h] at hex; exact Except.noConfusion hex
            · rw [h] at hrd; exact Except.noConfusion hrd
            · rw [h] at htr; exact Except.noConfusion htr

/-- Witness for C4 at a concrete failing transformation. -/
theorem claim_C4_fatal_no_write_witness :
    ((∃ e, (run_with_manifest (Env.mk (some "c") (some "src/lib.rs")
        (Except.ok "doc") "README.md" (Except.ok "old") (Except.error "boom")
        true true) ⟨false, none, false, false⟩).fst = Outcome.err e)
      ∧ noWrites (run_with_manifest (Env.mk (some "c") (some "src/lib.rs")
        (Except.ok "doc") "README.md" (Except.ok "old") (Except.error "boom")
        true true) ⟨false, none, false, false⟩).snd)
    ∧ ∀ s : String,
        main_run true (Except.error s) ⟨false, none, false, false⟩ = (1, []) :=
  claim_C4_fatal_no_write _ _
    (Or.inr (Or.inr (Or.inr (Or.inr ⟨"boom", rfl⟩))))

/-- Counterexample to claim C5 as stated: in a run where the manifest yields
no entry point but also no crate name, the failure is the crate-name
`HardError`, not `CannotFindEntryPoint`. -/
theorem claim_C5_counterexample :
    (Env.mk none none (Except.ok "doc") "README.md" (Except.ok "old")
      (Except.ok ⟨"new", []⟩) true true).entry_point = none
    ∧ (run_with_manifest (Env.mk none none (Except.ok "doc") "README.md"
        (Except.ok "old") (Except.ok ⟨"new", []⟩) true true)
        ⟨false, none, false, false⟩).fst ≠
        Outcome.err RuntimeError.CannotFindEntryPoint
    ∧ (run_with_manifest (Env.mk none none (Except.ok "doc") "README.md"
        (Except.ok "old") (Except.ok ⟨"new", []⟩) true true)
        ⟨false, none, false, false⟩).fst =
        Outcome.err (RuntimeError.HardError "Failed to get the name of the crate") := by
  refine ⟨rfl, ?_, rfl⟩
  intro hc
  exact Outcome.noConfusion hc fun he => RuntimeError.noConfusion he

/-- Claim C5 (amended): whenever the manifest yields a crate name but no entry
point, the run fails with `CannotFindEntryPoint` with an empty effect log — so
before any extraction, transformation or write — and the process exits with
the non-zero code 1. -/
theorem claim_C5_no_entry_point (env : Env) (cli : CliOpt) (cn : String)
    (h1 : env.crate_name = some cn) (h2 : env.entry_point = none) :
    run_with_manifest env cli = (Outcome.err RuntimeError.CannotFindEntryPoint, [])
    ∧ main_run true (Except.ok env) cli = (1, []) := by
  have hr : run_with_manifest env cli =
      (Outcome.err RuntimeError.CannotFindEntryPoint, []) := by
    simp [run_with_manifest, h1, h2]
  refine ⟨hr, ?_⟩
  simp [main_run, hr]

/-- Witness for the amended C5 at a concrete entry-point-less manifest. -/
theorem claim_C5_no_entry_point_witness :
    run_with_manifest (Env.mk (some "c") none (Except.ok "doc") "README.md"
        (Except.ok "old") (Except.ok ⟨"new", []⟩) true true)
        ⟨false, none, false, false⟩ =
      (Outcome.err RuntimeError.CannotFindEntryPoint, [])
    ∧ main_run true (Except.ok (Env.mk (some "c") none (Except.ok "doc")
        "README.md" (Except.ok "old") (Except.ok ⟨"new", []⟩) true true))
        ⟨false, none, false, false⟩ = (1, []) :=
  claim_C5_no_entry_point _ _ "c" rfl rfl

end SyncReadme

namespace SyncReadme

/-- Claim C6: in check mode the verdict depends only on the equality of old
and new document text — two runs over the same old/new pair but arbitrary,
even different, warning lists produce the same verdict; a mismatch is the
`NotSynchronized` error, distinct from the warnings error; and when the texts
agree the run succeeds whatever the warnings are. -/
theorem claim_C6_check_ignores_warnings (env env2 : Env) (cli cli2 : CliOpt)
    (cn ep doc cn2 ep2 doc2 old newR : String) (ws ws2 : List String)
    (h1 : env.crate_name = some cn) (h2 : env.entry_point = some ep)
    (h3 : env.extract_result = Except.ok doc)
    (h4 : env.read_readme = Except.ok old)
    (h5 : env.transform_result = Except.ok ⟨newR, ws⟩)
    (h6 : cli.check = true)
    (g1 : env2.crate_name = some cn2) (g2 : env2.entry_point = some ep2)
    (g3 : env2.extract_result = Except.ok doc2)
    (g4 : env2.read_readme = Except.ok old)
    (g5 : env2.transform_result = Except.ok ⟨newR, ws2⟩)
    (g6 : cli2.check = true) :
    (run_with_manifest env cli).fst = (run_with_manifest env2 cli2).fst
    ∧ (run_with_manifest env cli).fst =
        (if old = newR then Outcome.ok else Outcome.err RuntimeError.NotSynchronized)
    ∧ (old = newR → (run_with_manifest env cli).fst = Outcome.ok)
    ∧ RuntimeError.NotSynchronized ≠ RuntimeError.HadWarnings := by
  have key : ∀ (e : Env) (c : CliOpt) (a b d : String) (w : List String),
      e.crate_name = some a → e.entry_point = some b →
      e.extract_result = Except.ok d → e.read_readme = Except.ok old →
      e.transform_result = Except.ok ⟨newR, w⟩ → c.check = true →
      (run_with_manifest e c).fst =
        (if old = newR then Outcome.ok
         else Outcome.err RuntimeError.NotSynchronized) := by
    intro e c a b d w q1 q2 q3 q4 q5 q6
    by_cases hq : old = newR <;>
      simp [run_with_manifest, q1, q2, q3, q4, q5, q6, report_synchronized,
        outcomeOf, hq]
  refine ⟨?_, key env cli cn ep doc ws h1 h2 h3 h4 h5 h6, ?_, by simp⟩
  · rw [key env cli cn ep doc ws h1 h2 h3 h4 h5 h6,
      key env2 cli2 cn2 ep2 doc2 ws2 g1 g2 g3 g4 g5 g6]
  · intro hq
    rw [key env cli cn ep doc ws h1 h2 h3 h4 h5 h6, if_pos hq]

/-- Witness for C6: same synchronized pair, one run without warnings and one
with a warning — both report success. -/
theorem claim_C6_check_ignores_warnings_witness :
    (run_with_manifest (Env.mk (some "c") (some "src/lib.rs") (Except.ok "doc")
        "README.md" (Except.ok "same") (Except.ok ⟨"same", []⟩) true true)
        ⟨false, none, false, true⟩).fst =
      (run_with_manifest (Env.mk (some "c") (some "src/lib.rs") (Except.ok "doc")
        "README.md" (Except.ok "same") (Except.ok ⟨"same", ["w1"]⟩) true true)
        ⟨false, none, false, true⟩).fst
    ∧ (run_with_manifest (Env.mk (some "c") (some "src/lib.rs") (Except.ok "doc")
        "README.md" (Except.ok "same") (Except.ok ⟨"same", []⟩) true true)
        ⟨false, none, false, true⟩).fst =
      (if "same" = "same" then Outcome.ok
       else Outcome.err RuntimeError.NotSynchronized)
    ∧ ("same" = "same" →
      (run_with_manifest (Env.mk (some "c") (some "src/lib.rs") (Except.ok "doc")
        "README.md" (Except.ok "same") (Except.ok ⟨"same", []⟩) true true)
        ⟨false, none, false, true⟩).fst = Outcome.ok)
    ∧ RuntimeError.NotSynchronized ≠ RuntimeError.HadWarnings :=
  claim_C6_check_ignores_warnings _ _ _ _ "c" "src/lib.rs" "doc" "c" "src/lib.rs"
    "doc" "same" "same" [] ["w1"] rfl rfl rfl rfl rfl rfl rfl rfl rfl rfl rfl rfl

/-- Claim C10: in non-check mode the result of `write_all` is discarded — with
file creation succeeding and the write itself failing, the run still returns
clean success when the warning list is empty and `HadWarnings` otherwise,
while the failed write attempt is in the effect log; only a failed
`File::create` interrupts the run, and it does so by panic, never through the
documented error path. -/
theorem claim_C10_write_result_discarded (env : Env) (cli : CliOpt)
    (cn ep doc old newR : String) (ws : List String)
    (h1 : env.crate_name = some cn) (h2 : env.entry_point = some ep)
    (h3 : env.extract_result = Except.ok doc)
    (h4 : env.read_readme = Except.ok old)
    (h5 : env.transform_result = Except.ok ⟨newR, ws⟩)
    (h6 : cli.check = false) (hw : env.write_ok = false) :
    (env.create_ok = true →
      (run_with_manifest env cli).fst =
        (if ws.isEmpty then Outcome.ok else Outcome.err RuntimeError.HadWarnings)
      ∧ Effect.writeAll env.readme_path newR false ∈ (run_with_manifest env cli).snd)
    ∧ (env.create_ok = false →
      (run_with_manifest env cli).fst = Outcome.panic
      ∧ ∀ e, (run_with_manifest env cli).fst ≠ Outcome.err e) := by
  constructor
  · intro hk
    constructor
    · simp [run_with_manifest, h1, h2, h3, h4, h5, h6, hk]
    · rw [← hw]
      simp [run_with_manifest, h1, h2, h3, h4, h5, h6, hk]
  · intro hk
    have hp : (run_with_manifest env cli).fst = Outcome.panic := by
      simp [run_with_manifest, h1, h2, h3, h4, h5, h6, hk]
    refine ⟨hp, fun e hc => ?_⟩
    rw [hp] at hc
    exact Outcome.noConfusion hc

/-- Witness for C10: creation succeeds, the write fails, no warnings — the
run still reports clean success. -/
theorem claim_C10_write_result_discarded_witness :
    ((Env.mk (some "c") (some "src/lib.rs") (Except.ok "doc") "README.md"
        (Except.ok "old") (Except.ok ⟨"new", []⟩) true false).create_ok = true →
      (run_with_manifest (Env.mk (some "c") (some "src/lib.rs") (Except.ok "doc")
        "README.md" (Except.ok "old") (Except.ok ⟨"new", []⟩) true false)
        ⟨false, none, false, false⟩).fst =
        (if ([] : List String).isEmpty then Outcome.ok
         else Outcome.err RuntimeError.HadWarnings)
      ∧ Effect.writeAll (Env.mk (some "c") (some "src/lib.rs") (Except.ok "doc")
          "README.md" (Except.ok "old") (Except.ok ⟨"new", []⟩) true
          false).readme_path "new" false ∈
        (run_with_manifest (Env.mk (some "c") (some "src/lib.rs") (Except.ok "doc")
          "README.md" (Except.ok "old") (Except.ok ⟨"new", []⟩) true false)
          ⟨false, none, false, false⟩).snd)
    ∧ ((Env.mk (some "c") (some "src/lib.rs") (Except.ok "doc") "README.md"
        (Except.ok "old") (Except.ok ⟨"new", []⟩) true false).create_ok = false →
      (run_with_manifest (Env.mk (some "c") (some "src/lib.rs") (Except.ok "doc")
        "README.md" (Except.ok "old") (Except.ok ⟨"new", []⟩) true false)
        ⟨false, none, false, false⟩).fst = Outcome.panic
      ∧ ∀ e, (run_with_manifest (Env.mk (some "c") (some "src/lib.rs")
          (Except.ok "doc") "README.md" (Except.ok "old")
          (Except.ok ⟨"new", []⟩) true false)
          ⟨false, none, false, false⟩).fst ≠ Outcome.err e) :=
  claim_C10_write_result_discarded _ _ "c" "src/lib.rs" "doc" "old" "new" []
    rfl rfl rfl rfl rfl rfl rfl

end SyncReadme

namespace SyncReadme

/-! ## Idempotence of the marker transformer -/

theorem markerKind_start_lit : markerKind MARKER_START = MarkerKind.mstart := by
  decide

theorem markerKind_end_lit : markerKind MARKER_END = MarkerKind.mend := by
  decide

theorem transformGo_cons_bare (doc : List String) (l : String) (ls : List String)
    (h : markerKind l = MarkerKind.bare) :
    transformGo doc (l :: ls) =
      some (MARKER_START :: (doc ++ MARKER_END :: ls),
        if anyMarker ls then [Warning.multipleMarkers] else []) := by
  simp [transformGo, h]

theorem transformGo_cons_mstart (doc : List String) (l : String) (ls : List String)
    (h : markerKind l = MarkerKind.mstart) :
    transformGo doc (l :: ls) =
      match dropToEnd ls with
      | some after =>
        some (MARKER_START :: (doc ++ MARKER_END :: after),
          if anyMarker after then [Warning.multipleMarkers] else [])
      | none => none := by
  simp [transformGo, h]

theorem transformGo_cons_mend (doc : List String) (l : String) (ls : List String)
    (h : markerKind l = MarkerKind.mend) :
    transformGo doc (l :: ls) =
      (transformGo doc ls).map fun p => (l :: p.1, Warning.strayEnd :: p.2) := by
  simp [transformGo, h]

theorem transformGo_cons_plain (doc : List String) (l : String) (ls : List String)
    (h : markerKind l = MarkerKind.other) :
    transformGo doc (l :: ls) =
      (transformGo doc ls).map fun p => (l :: p.1, p.2) := by
  simp [transformGo, h]

theorem dropToEnd_append (doc rest : List String)
    (hdoc : ∀ l ∈ doc, markerKind l = MarkerKind.other) :
    dropToEnd (doc ++ MARKER_END :: rest) = some rest := by
  induction doc with
  | nil => simp [dropToEnd, markerKind_end_lit]
  | cons a t ih =>
    have ha : markerKind a = MarkerKind.other := hdoc a (by simp)
    rw [List.cons_append]
    simp only [dropToEnd, ha]
    rw [if_neg (by simp)]
    exact ih fun l hl => hdoc l (by simp [hl])

theorem transformGo_on_spliced (doc rest : List String)
    (hdoc : ∀ l ∈ doc, markerKind l = MarkerKind.other) :
    transformGo doc (MARKER_START :: (doc ++ MARKER_END :: rest)) =
      some (MARKER_START :: (doc ++ MARKER_END :: rest),
        if anyMarker rest then [Warning.multipleMarkers] else []) := by
  rw [transformGo_cons_mstart doc MARKER_START (doc ++ MARKER_END :: rest)
    markerKind_start_lit, dropToEnd_append doc rest hdoc]

theorem transformGo_idem (doc : List String)
    (hdoc : ∀ l ∈ doc, markerKind l = MarkerKind.other) :
    ∀ (lines out : List String) (ws : List Warning),
      transformGo doc lines = some (out, ws) →
      ∃ ws2, transformGo doc out = some (out, ws2) := by
  intro lines
  induction lines with
  | nil =>
    intro out ws h
    exact absurd h (by simp [transformGo])
  | cons l ls ih =>
    intro out ws h
    rcases hk : markerKind l with _ | _ | _ | _
    · -- bare marker: `out` is the freshly spliced block
      rw [transformGo_cons_bare doc l ls hk] at h
      have hout : MARKER_START :: (doc ++ MARKER_END :: ls) = out :=
        congrArg Prod.fst (Option.some.inj h)
      rw [← hout]
      exact ⟨_, transformGo_on_spliced doc ls hdoc⟩
    · -- start marker: `out` is the re-spliced replacement span
      rw [transformGo_cons_mstart doc l ls hk] at h
      rcases hde : dropToEnd ls with _ | after
      · rw [hde] at h; exact Option.noConfusion h
      · rw [hde] at h
        have hout : MARKER_START :: (doc ++ MARKER_END :: after) = out :=
          congrArg Prod.fst (Option.some.inj h)
        rw [← hout]
        exact ⟨_, transformGo_on_spliced doc after hdoc⟩
    · -- stray end marker: the line is kept and scanning continues
      rw [transformGo_cons_mend doc l ls hk] at h
      rcases hgo : transformGo doc ls with _ | p
      · rw [hgo] at h; exact Option.noConfusion h
      · rw [hgo, Option.map_some'] at h
        have hout : l :: p.1 = out := congrArg Prod.fst (Option.some.inj h)
        obtain ⟨ws2, hw2⟩ := ih p.1 p.2 (by rw [hgo])
        rw [← hout]
        exact ⟨Warning.strayEnd :: ws2,
          by rw [transformGo_cons_mend doc l p.1 hk, hw2, Option.map_some']⟩
    · -- ordinary line: the line is kept and scanning continues
      rw [transformGo_cons_plain doc l ls hk] at h
      rcases hgo : transformGo doc ls with _ | p
      · rw [hgo] at h; exact Option.noConfusion h
      · rw [hgo, Option.map_some'] at h
        have hout : l :: p.1 = out := congrArg Prod.fst (Option.some.inj h)
        obtain ⟨ws2, hw2⟩ := ih p.1 p.2 (by rw [hgo])
        rw [← hout]
        exact ⟨ws2,
          by rw [transformGo_cons_plain doc l p.1 hk, hw2, Option.map_some']⟩

/-- Counterexample to claim C7 as stated: when the doc block itself contains a
line equal to the end-marker literal, the output of a first transform (an
"already synchronized" document) is changed again by a second transform. -/
theorem claim_C7_counterexample :
    transform_readme [MARKER] [MARKER_END] =
      Except.ok ([MARKER_START, MARKER_END, MARKER_END], [])
    ∧ transform_readme [MARKER_START, MARKER_END, MARKER_END] [MARKER_END] =
      Except.ok ([MARKER_START, MARKER_END, MARKER_END, MARKER_END],
        [Warning.multipleMarkers])
    ∧ [MARKER_START, MARKER_END, MARKER_END, MARKER_END] ≠
      ([MARKER_START, MARKER_END, MARKER_END] : List String) := by
  refine ⟨by decide, by decide, by decide⟩

/-- Claim C7 (amended): the transformation is idempotent on synchronized
documents whose doc block contains no marker line — whenever a document is the
text output of a transform with doc block `doc` (no line of which is itself a
marker), transforming it again with the same doc block yields byte-identical
text. -/
theorem claim_C7_transform_idempotent (doc lines out : List String)
    (ws : List Warning)
    (hdoc : ∀ l ∈ doc, markerKind l = MarkerKind.other)
    (h : transform_readme lines doc = Except.ok (out, ws)) :
    ∃ ws2, transform_readme out doc = Except.ok (out, ws2) := by
  rcases hgo : transformGo doc lines with _ | p
  · rw [transform_readme, hgo] at h
    exact Except.noConfusion h
  · rw [transform_readme, hgo] at h
    have hp : p = (out, ws) := Except.ok.inj h
    obtain ⟨ws2, hw2⟩ := transformGo_idem doc hdoc lines out ws (by rw [hgo, hp])
    exact ⟨ws2, by rw [transform_readme, hw2]⟩

/-- Witness for the amended C7 at a concrete marker-free doc block. -/
theorem claim_C7_transform_idempotent_witness :
    (∀ l ∈ ["hello"], markerKind l = MarkerKind.other)
    ∧ ∃ ws2,
        transform_readme ["a", MARKER_START, "hello", MARKER_END, "b"] ["hello"] =
          Except.ok ((["a", MARKER_START, "hello", MARKER_END, "b"] : List String),
            ws2) :=
  ⟨by decide,
   claim_C7_transform_idempotent ["hello"] ["a", MARKER, "b"]
     ["a", MARKER_START, "hello", MARKER_END, "b"] [] (by decide) (by decide)⟩

end SyncReadme

namespace SyncReadme

/-! ## Hidden-line filtering in the doc extractor -/

theorem filterHidden_show_all (f : Bool) (ls : List String) :
    filterHidden true f ls = ls := by
  induction ls generalizing f with
  | nil => rfl
  | cons l t ih =>
    by_cases hf : isFenceLine l
    · simp [filterHidden, hf, ih]
    · simp [filterHidden, hf, ih]

theorem filterHidden_eq_filter_tag (f : Bool) (ls : List String) :
    filterHidden false f ls =
      ((tagHidden f ls).filter fun p => !p.2).map Prod.fst := by
  induction ls generalizing f with
  | nil => rfl
  | cons l t ih =>
    by_cases hf : isFenceLine l
    · simp [filterHidden, tagHidden, hf, ih]
    · by_cases hh : (f && isHiddenLine l) = true
      · simp [filterHidden, tagHidden, hf, hh, ih]
      · simp [filterHidden, tagHidden, hf, hh, ih]

theorem tagHidden_length (f : Bool) (ls : List String) :
    (tagHidden f ls).length = ls.length := by
  induction ls generalizing f with
  | nil => rfl
  | cons l t ih =>
    by_cases hf : isFenceLine l <;> simp [tagHidden, hf, ih]

theorem tagHidden_map_fst (f : Bool) (ls : List String) :
    (tagHidden f ls).map Prod.fst = ls := by
  induction ls generalizing f with
  | nil => rfl
  | cons l t ih =>
    by_cases hf : isFenceLine l <;> simp [tagHidden, hf, ih]

/-- Claim C8: whenever the leading inner documentation contains a line to
which the fenced-code hidden-line rule applies (position `i` of the
fence-state tagging), extraction with `show_hidden = false` returns exactly
the non-hidden lines in order — so that line is omitted and the result is
strictly shorter than the doc block — while extraction with
`show_hidden = true` returns every doc line verbatim, that line included at
its position. -/
theorem claim_C8_hidden_line_filtering (src : List String) (i : Nat) (l : String)
    (h : (tagHidden false (leadingDocLines src)).get? i = some (l, true)) :
    extract_inner_doc src false =
      Except.ok (((tagHidden false (leadingDocLines src)).filter
        fun p => !p.2).map Prod.fst)
    ∧ extract_inner_doc src true = Except.ok (leadingDocLines src)
    ∧ (leadingDocLines src).get? i = some l
    ∧ ∀ out, extract_inner_doc src false = Except.ok out →
        out.length < (leadingDocLines src).length := by
  have hne : (leadingDocLines src).isEmpty = false := by
    rcases hd : leadingDocLines src with _ | ⟨a, t⟩
    · rw [hd] at h
      simp [tagHidden] at h
    · rfl
  have h1 : extract_inner_doc src false =
      Except.ok (((tagHidden false (leadingDocLines src)).filter
        fun p => !p.2).map Prod.fst) := by
    simp only [extract_inner_doc, hne, Bool.false_eq_true, if_false,
      filterHidden_eq_filter_tag]
  have h2 : extract_inner_doc src true = Except.ok (leadingDocLines src) := by
    simp only [extract_inner_doc, hne, Bool.false_eq_true, if_false,
      filterHidden_show_all]
  have h3 : (leadingDocLines src).get? i = some l := by
    rw [← tagHidden_map_fst false (leadingDocLines src), List.get?_map, h]
    rfl
  refine ⟨h1, h2, h3, ?_⟩
  intro out hout
  rw [h1] at hout
  rw [← Except.ok.inj hout, List.length_map,
    ← tagHidden_length false (leadingDocLines src)]
  refine List.length_filter_lt_length_iff_exists.mpr ⟨(l, true), ?_, by simp⟩
  exact List.get?_mem h

/-- Witness for C8 at a concrete source with a hidden line in a fence. -/
theorem claim_C8_hidden_line_filtering_witness :
    extract_inner_doc ["//! intro", "//! ```", "//! # secret", "//! shown",
        "//! ```", "fn main() {}"] false =
      Except.ok (((tagHidden false (leadingDocLines ["//! intro", "//! ```",
        "//! # secret", "//! shown", "//! ```", "fn main() {}"])).filter
        fun p => !p.2).map Prod.fst)
    ∧ extract_inner_doc ["//! intro", "//! ```", "//! # secret", "//! shown",
        "//! ```", "fn main() {}"] true =
      Except.ok (leadingDocLines ["//! intro", "//! ```", "//! # secret",
        "//! shown", "//! ```", "fn main() {}"])
    ∧ (leadingDocLines ["//! intro", "//! ```", "//! # secret", "//! shown",
        "//! ```", "fn main() {}"]).get? 2 = some "# secret"
    ∧ ∀ out, extract_inner_doc ["//! intro", "//! ```", "//! # secret",
        "//! shown", "//! ```", "fn main() {}"] false = Except.ok out →
        out.length < (leadingDocLines ["//! intro", "//! ```", "//! # secret",
          "//! shown", "//! ```", "fn main() {}"]).length :=
  claim_C8_hidden_line_filtering _ 2 "# secret" (by decide)

end SyncReadme
